import Mathlib

/-!
Shallow embedding of the numerology scoring engine of
`numerology_core.py` (the reduction primitives, the advanced profile
calculator `calculate_numerology_advanced`, and the compatibility
calculator `calculate_compatibility`).

Modelling conventions:
* Python strings are modelled as `List Char`.
* Python integers are modelled as `ℤ` (or `ℕ` where the source value is a
  count or digit sum that is non-negative by construction).
* Python floats are modelled as `ℚ`.  All float arithmetic the engine
  performs on its percentage table (sums, halving, subtraction, absolute
  value, comparisons) is exact in IEEE doubles, because every table entry
  is a multiple of 4.5 and magnitudes stay tiny; only the compatibility
  weight multiplications (by 0.4/0.3/0.2/0.1) and `round` carry sub-ulp
  representation error, which never crosses any comparison or bound used
  below.
* Fallible operations (date parsing; the source returns an `error` dict)
  are modelled with `Option`.
* `datetime.strptime` with the formats `%Y-%m-%d` / `%d.%m.%Y` is modelled
  by its CPython behaviour: the year field is exactly four digits, day and
  month fields are one or two digits with values in 1..31 / 1..12, the
  whole string must be consumed, and the resulting (y, m, d) triple must
  be a real calendar date with year ≥ 1 (Gregorian leap rule).
* `str.lower` / `str.isalpha` are modelled faithfully on the alphabets
  this program maps (ASCII and Cyrillic, including Ё/ё); other Unicode
  letters would be lower-cased and counted as alphabetic by Python but
  always carry letter value 0, so no numeric field depends on them.
-/

/-- Python `abs` on an integer. -/
def intAbs (n : ℤ) : ℤ := if n < 0 then -n else n

/-- Python `abs` on a float (modelled as ℚ). -/
def ratAbs (q : ℚ) : ℚ := if q < 0 then -q else q

/-- Python `min` of two floats: the first argument when they are equal. -/
def ratMin (a b : ℚ) : ℚ := if a ≤ b then a else b

/-- Floor of a rational, written out on the numerator/denominator
representation. -/
def ratFloor (q : ℚ) : ℤ := Int.ediv q.num q.den

/-- Python `str.lower`, restricted to the alphabets this program maps:
ASCII letters and Cyrillic letters (`А`–`Я` maps by +0x20, `Ё` maps to
`ё`); every other character is returned unchanged. -/
def pyLower (c : Char) : Char :=
  if 'A' ≤ c ∧ c ≤ 'Z' then Char.ofNat (c.toNat + 32)
  else if 'А' ≤ c ∧ c ≤ 'Я' then Char.ofNat (c.toNat + 32)
  else if c = 'Ё' then 'ё'
  else c

/-- Python `str.isalpha`, restricted to the alphabets this program maps
(ASCII and Cyrillic letters). -/
def pyIsAlpha (c : Char) : Bool :=
  decide (('a' ≤ c ∧ c ≤ 'z') ∨ ('A' ≤ c ∧ c ≤ 'Z') ∨
    ('а' ≤ c ∧ c ≤ 'я') ∨ ('А' ≤ c ∧ c ≤ 'Я') ∨ c = 'ё' ∨ c = 'Ё')

/-- ASCII whitespace, as recognised by Python `str.split()` on the inputs
this program receives. -/
def pyIsSpace (c : Char) : Bool :=
  c == ' ' || c == '\t' || c == '\n' || c == '\r' || c == '\x0b' || c == '\x0c'

/-- Split a character list at every occurrence of `sep`, keeping empty
pieces (the behaviour of splitting a string on a literal separator). -/
def splitOnChar (sep : Char) : List Char → List (List Char)
  | [] => [[]]
  | c :: rest =>
    let r := splitOnChar sep rest
    if c = sep then [] :: r
    else
      match r with
      | h :: t => (c :: h) :: t
      | [] => [[c]]

/-- Numeric value of a list of decimal digit characters. -/
def natOfDigits (l : List Char) : ℕ :=
  l.foldl (fun acc c => 10 * acc + (c.toNat - 48)) 0

/-- A parsed calendar date: the (day, month, year) triple that
`datetime.strptime` produces. -/
structure DateParts where
  day : ℕ
  month : ℕ
  year : ℕ
deriving Inhabited, DecidableEq

/-- Gregorian leap-year rule, as used by `datetime`. -/
def isLeapYear (y : ℕ) : Bool :=
  (y % 4 == 0 && y % 100 != 0) || y % 400 == 0

/-- Number of days of month `m` in year `y`, as validated by the
`datetime` constructor. -/
def daysInMonth (y m : ℕ) : ℕ :=
  if m = 2 then (if isLeapYear y then 29 else 28)
  else if m = 4 ∨ m = 6 ∨ m = 9 ∨ m = 11 then 30
  else 31

/-- Final calendar validation performed by the `datetime` constructor:
year in 1..9999, month in 1..12, day within the month. -/
def mkValidDate (d m y : ℕ) : Option DateParts :=
  if 1 ≤ y ∧ y ≤ 9999 ∧ 1 ≤ m ∧ m ≤ 12 ∧ 1 ≤ d ∧ d ≤ daysInMonth y m then
    some ⟨d, m, y⟩
  else none

/-- The `%d` field of `strptime`: one or two digit characters whose value
is in 1..31, or (a CPython ctime-compatibility alternative) a space
followed by a single digit 1..9.  Digits are modelled as ASCII digits. -/
def parseDayField (l : List Char) : Option ℕ :=
  if l ≠ [] ∧ l.length ≤ 2 ∧ l.all Char.isDigit ∧
      1 ≤ natOfDigits l ∧ natOfDigits l ≤ 31 then
    some (natOfDigits l)
  else
    match l with
    | [' ', c] => if '1' ≤ c ∧ c ≤ '9' then some (c.toNat - 48) else none
    | _ => none

/-- The `%m` field of `strptime`: one or two digit characters whose value
is in 1..12. -/
def parseMonthField (l : List Char) : Option ℕ :=
  if l ≠ [] ∧ l.length ≤ 2 ∧ l.all Char.isDigit ∧
      1 ≤ natOfDigits l ∧ natOfDigits l ≤ 12 then
    some (natOfDigits l)
  else none

/-- The `%Y` field of `strptime`: exactly four digit characters. -/
def parseYearField (l : List Char) : Option ℕ :=
  if l.length = 4 ∧ l.all Char.isDigit then some (natOfDigits l) else none

/-- Parse three already-split date fields and validate the calendar
date. -/
def parseTriple (ds ms ys : List Char) : Option DateParts :=
  match parseDayField ds, parseMonthField ms, parseYearField ys with
  | some d, some m, some y => mkValidDate d m y
  | _, _, _ => none

/-- The birthdate parsing of `calculate_numerology_advanced`: strings
containing `-` are parsed as `YYYY-MM-DD`, all others as `DD.MM.YYYY`;
any parse or calendar failure yields `none` (the source returns an
`error` dict). -/
def parseBirthdate (s : List Char) : Option DateParts :=
  if s.contains '-' then
    match splitOnChar '-' s with
    | [ys, ms, ds] => parseTriple ds ms ys
    | _ => none
  else
    match splitOnChar '.' s with
    | [ds, ms, ys] => parseTriple ds ms ys
    | _ => none

/-- One pass of the `while number > 22: number -= 22` loop of
`reduce_to_arcane`, with explicit fuel bounding the iteration count. -/
def reduceAux : ℕ → ℤ → ℤ
  | 0, n => n
  | fuel + 1, n => if n > 22 then reduceAux fuel (n - 22) else n

/-- `reduce_to_arcane` from the source: repeatedly subtract 22 while the
value exceeds 22, then map an exact 0 to 22.  The fuel `n.toNat` is an
upper bound on the number of iterations the Python loop performs, so the
fuelled loop computes the same value as the unbounded one. -/
def reduce_to_arcane (n : ℤ) : ℤ :=
  let r := reduceAux n.toNat n
  if r = 0 then 22 else r

/-- Digit sum of the decimal representation (one pass, no re-reduction),
with fuel; models `sum(int(digit) for digit in str(year))`. -/
def yearDigitSumAux : ℕ → ℕ → ℕ
  | 0, n => n % 10
  | fuel + 1, n => if n < 10 then n else n % 10 + yearDigitSumAux fuel (n / 10)

/-- One-pass digit sum of a natural number. -/
def year_digit_sum (n : ℕ) : ℕ := yearDigitSumAux n n

/-- `get_arcane_percent` from the source: the fixed 22-entry percentage
table; any other index yields 0.0. -/
def get_arcane_percent (arcane : ℤ) : ℚ :=
  if arcane = 1 then 27.0
  else if arcane = 2 then 22.5
  else if arcane = 3 then 36.0
  else if arcane = 4 then 99.0
  else if arcane = 5 then 31.5
  else if arcane = 6 then 18.0
  else if arcane = 7 then 54.0
  else if arcane = 8 then 58.5
  else if arcane = 9 then 40.5
  else if arcane = 10 then 81.0
  else if arcane = 11 then 67.5
  else if arcane = 12 then 9.0
  else if arcane = 13 then 90.0
  else if arcane = 14 then 45.0
  else if arcane = 15 then 72.0
  else if arcane = 16 then 94.5
  else if arcane = 17 then 63.0
  else if arcane = 18 then 13.5
  else if arcane = 19 then 85.5
  else if arcane = 20 then 4.5
  else if arcane = 21 then 49.5
  else if arcane = 22 then 76.5
  else 0.0

/-- `get_arcane_type` from the source: yin/yang and fate/will set
membership tests. -/
def get_arcane_type (arcane : ℤ) (type_key : String) : String :=
  if type_key = "yin_yang" then
    if arcane ∈ ([2, 3, 6, 12, 14, 15, 17, 18, 20, 21, 22] : List ℤ) then "ИНЬ" else "ЯН"
  else if type_key = "fate_will" then
    if arcane ∈ ([1, 2, 5, 6, 9, 10, 13, 14, 15, 16, 20] : List ℤ) then "СУДЬБА" else "ВОЛЯ"
  else "НЕИЗВЕСТНО"

/-- `letter_to_number` from the source: the fixed 33-entry Cyrillic
letter table, applied after lower-casing; unknown characters map to 0. -/
def letter_to_number (letter : Char) : ℕ :=
  let l := pyLower letter
  if l = 'а' then 1 else if l = 'б' then 2 else if l = 'в' then 3
  else if l = 'г' then 4 else if l = 'д' then 5 else if l = 'е' then 6
  else if l = 'ё' then 6 else if l = 'ж' then 8 else if l = 'з' then 9
  else if l = 'и' then 1 else if l = 'й' then 2 else if l = 'к' then 3
  else if l = 'л' then 4 else if l = 'м' then 5 else if l = 'н' then 6
  else if l = 'о' then 7 else if l = 'п' then 8 else if l = 'р' then 9
  else if l = 'с' then 1 else if l = 'т' then 2 else if l = 'у' then 3
  else if l = 'ф' then 4 else if l = 'х' then 5 else if l = 'ц' then 6
  else if l = 'ч' then 7 else if l = 'ш' then 8 else if l = 'щ' then 9
  else if l = 'ъ' then 1 else if l = 'ы' then 2 else if l = 'ь' then 3
  else if l = 'э' then 4 else if l = 'ю' then 5 else if l = 'я' then 6
  else 0

/-- Python `str.split()` with no argument: split on whitespace runs,
discarding empty pieces (accumulator carries the current word
reversed). -/
def pySplitAux : List Char → List Char → List (List Char)
  | [], cur => if cur = [] then [] else [cur.reverse]
  | c :: rest, cur =>
    if pyIsSpace c then
      if cur = [] then pySplitAux rest [] else cur.reverse :: pySplitAux rest []
    else pySplitAux rest (c :: cur)

/-- Whitespace tokenisation of a name string. -/
def pySplit (s : List Char) : List (List Char) := pySplitAux s []

/-- The unique-letter extraction of `calculate_master_number`: keep the
first occurrence of each alphabetic character, in order (`seen` is the
set of already-kept characters). -/
def uniqueLettersAux : List Char → List Char → List Char
  | [], _ => []
  | c :: rest, seen =>
    if pyIsAlpha c ∧ ¬ seen.contains c then
      c :: uniqueLettersAux rest (c :: seen)
    else uniqueLettersAux rest seen

/-- `calculate_master_number` from the source: concatenate the first two
whitespace tokens of the name (or the whole string if there are fewer),
lower-case, keep unique alphabetic characters in first-occurrence order,
sum their letter values, and reduce to an arcane.  Returns the master
number and the unique-letter sequence. -/
def calculate_master_number (fio : List Char) : ℤ × List Char :=
  let parts := pySplit fio
  let name_surname :=
    match parts with
    | p0 :: p1 :: _ => p0 ++ p1
    | _ => fio
  let unique_letters := uniqueLettersAux (name_surname.map pyLower) []
  let total : ℕ := (unique_letters.map letter_to_number).sum
  (reduce_to_arcane (total : ℤ), unique_letters)

/-- The letter-value total of the unique-letter sequence of a name (the
`total` local of `calculate_master_number`). -/
def letterTotal (fio : List Char) : ℕ :=
  ((calculate_master_number fio).2.map letter_to_number).sum

/-- The per-candidate distance used by the status (СТ) scan:
`abs(get_arcane_percent(arcane) - abs(st_percent))`. -/
def stDiff (st_percent : ℚ) (arcane : ℤ) : ℚ :=
  ratAbs (get_arcane_percent arcane - ratAbs st_percent)

/-- The status scan loop of `calculate_numerology_advanced`: the
accumulator holds the best arcane so far and the best distance
(`none` models the initial `float('inf')`); only a strictly smaller
distance updates the best, so ties keep the earlier arcane. -/
def stLoop (st_percent : ℚ) : List ℤ → ℤ × Option ℚ → ℤ × Option ℚ
  | [], acc => acc
  | a :: rest, (best, m) =>
    let diff := stDiff st_percent a
    match m with
    | none => stLoop st_percent rest (a, some diff)
    | some mv =>
      if diff < mv then stLoop st_percent rest (a, some diff)
      else stLoop st_percent rest (best, some mv)

/-- The ascending integer list `[s, s+1, ..., s+n-1]`. -/
def intsFrom (s : ℤ) : ℕ → List ℤ
  | 0 => []
  | n + 1 => s :: intsFrom (s + 1) n

/-- `range(1, 23)` of the status scan. -/
def arcaneRange : List ℤ := intsFrom 1 22

/-- A component of the profile: arcane index and percentage. -/
structure ArcaneEntry where
  arcane : ℤ
  percent : ℚ
deriving Inhabited

/-- The month component, which additionally records the yin/yang type
string (as the source dict does). -/
structure MtEntry where
  arcane : ℤ
  percent : ℚ
  type : String
deriving Inhabited

/-- The master-number component, which additionally records the yin/yang
and fate/will type strings. -/
structure MasterEntry where
  arcane : ℤ
  percent : ℚ
  tm_type : String
  pdm_type : String
deriving Inhabited

/-- The thirteen named arcanes of the computed profile. -/
structure Arcanes where
  dt : ArcaneEntry
  mt : MtEntry
  gt : ArcaneEntry
  master_number : MasterEntry
  zk : ArcaneEntry
  pch : ArcaneEntry
  kch : ArcaneEntry
  pr : ArcaneEntry
  sz : ArcaneEntry
  opv : ArcaneEntry
  eb : ArcaneEntry
  bs : ArcaneEntry
  st : ArcaneEntry
deriving Inhabited

/-- The raw inputs echoed in the result (the source also renders the
birthdate back to a `DD.MM.YYYY` string; we keep the parsed parts). -/
structure RawData where
  date : DateParts
  fio : List Char
  unique_letters : List Char
deriving Inhabited

/-- The result of `calculate_numerology_advanced` (the markdown report,
a pure rendering of the numeric fields below, is omitted). -/
structure NumerologyResult where
  raw_data : RawData
  arcanes : Arcanes
deriving Inhabited

/-- Дт: the day of the month reduced to an arcane. -/
def dtArcane (dp : DateParts) : ℤ := reduce_to_arcane (dp.day : ℤ)

/-- Мт: the month used directly as the arcane value. -/
def mtArcane (dp : DateParts) : ℤ := (dp.month : ℤ)

/-- Гт: the one-pass digit sum of the year reduced to an arcane. -/
def gtArcane (dp : DateParts) : ℤ :=
  reduce_to_arcane ((year_digit_sum dp.year : ℕ) : ℤ)

/-- МЧ: the master number of the name. -/
def masterNumberOf (fio : List Char) : ℤ := (calculate_master_number fio).1

/-- ЗК. -/
def zkArcane (dp : DateParts) : ℤ :=
  reduce_to_arcane (dtArcane dp + 2 * mtArcane dp + gtArcane dp)

/-- ПЧХ. -/
def pchArcane (dp : DateParts) : ℤ :=
  reduce_to_arcane (4 * dtArcane dp + 3 * mtArcane dp + 3 * gtArcane dp)

/-- The КЧХ subtraction with its fold-below-zero-by-adding-22 step. -/
def kchValue (dp : DateParts) : ℤ :=
  let v := dtArcane dp - gtArcane dp
  if v ≤ 0 then v + 22 else v

/-- КЧХ. -/
def kchArcane (dp : DateParts) : ℤ := reduce_to_arcane (kchValue dp)

/-- ПР. -/
def prArcane (dp : DateParts) : ℤ :=
  reduce_to_arcane (6 * dtArcane dp + 6 * mtArcane dp + 5 * gtArcane dp)

/-- СЗ. -/
def szArcane (dp : DateParts) : ℤ :=
  reduce_to_arcane (dtArcane dp + mtArcane dp + gtArcane dp)

/-- The ОПВ subtraction with its fold step. -/
def opvValue (dp : DateParts) : ℤ :=
  let v := dtArcane dp - mtArcane dp
  if v ≤ 0 then v + 22 else v

/-- ОПВ. -/
def opvArcane (dp : DateParts) : ℤ := reduce_to_arcane (opvValue dp)

/-- The ЭБ subtraction with its fold step. -/
def ebValue (dp : DateParts) : ℤ :=
  let v := mtArcane dp - gtArcane dp
  if v ≤ 0 then v + 22 else v

/-- ЭБ. -/
def ebArcane (dp : DateParts) : ℤ := reduce_to_arcane (ebValue dp)

/-- БС. -/
def bsArcane (dp : DateParts) (fio : List Char) : ℤ :=
  reduce_to_arcane (masterNumberOf fio + dtArcane dp + mtArcane dp)

/-- The signed status percentage СТ:
`(pct(МЧ)+pct(ПЧХ))/2 - (pct(БС)+pct(КЧХ))/2`. -/
def stPercent (dp : DateParts) (fio : List Char) : ℚ :=
  (get_arcane_percent (masterNumberOf fio) + get_arcane_percent (pchArcane dp)) / 2 -
    (get_arcane_percent (bsArcane dp fio) + get_arcane_percent (kchArcane dp)) / 2

/-- The status arcane: first minimiser of `stDiff` over 1..22, found by
the scan loop starting from the sentinel `(0, none)`. -/
def stArcane (dp : DateParts) (fio : List Char) : ℤ :=
  (stLoop (stPercent dp fio) arcaneRange (0, none)).1

/-- Assemble the profile for an already-parsed birthdate, exactly as the
body of `calculate_numerology_advanced` does after `strptime`
succeeds. -/
def profileFrom (dp : DateParts) (fio : List Char) : NumerologyResult :=
  let master := calculate_master_number fio
  { raw_data := { date := dp, fio := fio, unique_letters := master.2 }
    arcanes :=
    { dt := ⟨dtArcane dp, get_arcane_percent (dtArcane dp)⟩
      mt := ⟨mtArcane dp, get_arcane_percent (mtArcane dp),
             get_arcane_type master.1 "yin_yang"⟩
      gt := ⟨gtArcane dp, get_arcane_percent (gtArcane dp)⟩
      master_number := ⟨master.1, get_arcane_percent master.1,
             get_arcane_type master.1 "yin_yang",
             get_arcane_type master.1 "fate_will"⟩
      zk := ⟨zkArcane dp, get_arcane_percent (zkArcane dp)⟩
      pch := ⟨pchArcane dp, get_arcane_percent (pchArcane dp)⟩
      kch := ⟨kchArcane dp, get_arcane_percent (kchArcane dp)⟩
      pr := ⟨prArcane dp, get_arcane_percent (prArcane dp)⟩
      sz := ⟨szArcane dp, get_arcane_percent (szArcane dp)⟩
      opv := ⟨opvArcane dp, get_arcane_percent (opvArcane dp)⟩
      eb := ⟨ebArcane dp, get_arcane_percent (ebArcane dp)⟩
      bs := ⟨bsArcane dp fio, get_arcane_percent (bsArcane dp fio)⟩
      st := ⟨stArcane dp fio, stPercent dp fio⟩ } }

/-- `calculate_numerology_advanced` from the source: parse the birthdate
(`none` models the error dict), then compute the profile. -/
def calculate_numerology_advanced (birthdate fio : List Char) :
    Option NumerologyResult :=
  (parseBirthdate birthdate).map fun dp => profileFrom dp fio

/-- Round-half-to-even to an integer (Python `round`'s documented tie
rule; Python applies it to the IEEE-double representation, and the
properties proved below do not depend on the tie direction). -/
def roundHalfEven (q : ℚ) : ℤ :=
  let fl := ratFloor q
  if q - fl < 1 / 2 then fl
  else if q - fl > 1 / 2 then fl + 1
  else if fl % 2 = 0 then fl else fl + 1

/-- Python `round(x, 1)`. -/
def round1 (q : ℚ) : ℚ := (roundHalfEven (q * 10) : ℚ) / 10

/-- `life_path_diff` of `calculate_compatibility`. -/
def lifePathDiff (p1 p2 : NumerologyResult) : ℤ :=
  intAbs (p1.arcanes.sz.arcane - p2.arcanes.sz.arcane)

/-- `life_path_compatibility`. -/
def lifePathScore (p1 p2 : NumerologyResult) : ℚ :=
  ratMin 10 (10 - (lifePathDiff p1 p2 : ℚ) * 0.5)

/-- `soul_diff` of `calculate_compatibility` (Земной Круг). -/
def soulDiff (p1 p2 : NumerologyResult) : ℤ :=
  intAbs (p1.arcanes.zk.arcane - p2.arcanes.zk.arcane)

/-- `emotional_compatibility`. -/
def emotionalScore (p1 p2 : NumerologyResult) : ℚ :=
  ratMin 10 (10 - (soulDiff p1 p2 : ℚ) * 0.5)

/-- `master_diff` of `calculate_compatibility`. -/
def masterDiff (p1 p2 : NumerologyResult) : ℤ :=
  intAbs (p1.arcanes.master_number.arcane - p2.arcanes.master_number.arcane)

/-- `intellectual_compatibility`. -/
def intellectualScore (p1 p2 : NumerologyResult) : ℚ :=
  ratMin 10 (10 - (masterDiff p1 p2 : ℚ) * 0.5)

/-- `pers_diff` of `calculate_compatibility` (ПЧХ). -/
def persDiff (p1 p2 : NumerologyResult) : ℤ :=
  intAbs (p1.arcanes.pch.arcane - p2.arcanes.pch.arcane)

/-- `physical_compatibility`. -/
def physicalScore (p1 p2 : NumerologyResult) : ℚ :=
  ratMin 10 (10 - (persDiff p1 p2 : ℚ) * 0.5)

/-- `total_compatibility`: the weighted sum of the four sub-scores. -/
def totalScore (p1 p2 : NumerologyResult) : ℚ :=
  lifePathScore p1 p2 * 0.4 + emotionalScore p1 p2 * 0.3 +
    intellectualScore p1 p2 * 0.2 + physicalScore p1 p2 * 0.1

/-- The result record of `calculate_compatibility` (the nested
`compatibility` dict is flattened; the markdown report, a pure rendering
of these fields, is omitted). -/
structure CompatibilityResult where
  person1 : NumerologyResult
  person2 : NumerologyResult
  life_path : ℚ
  emotional : ℚ
  intellectual : ℚ
  physical : ℚ
  total : ℚ
  percent : ℚ
  karmic_connection : Bool
  challenges : List String
deriving Inhabited

/-- Assemble the compatibility record from two computed profiles, exactly
as `calculate_compatibility` does after both profile computations
succeed. -/
def compatFrom (p1 p2 : NumerologyResult) : CompatibilityResult :=
  { person1 := p1
    person2 := p2
    life_path := round1 (lifePathScore p1 p2)
    emotional := round1 (emotionalScore p1 p2)
    intellectual := round1 (intellectualScore p1 p2)
    physical := round1 (physicalScore p1 p2)
    total := round1 (totalScore p1 p2)
    percent := round1 (totalScore p1 p2 * 10)
    karmic_connection :=
      p1.arcanes.sz.arcane == p2.arcanes.sz.arcane ||
        p1.arcanes.master_number.arcane == p2.arcanes.master_number.arcane
    challenges :=
      (if lifePathDiff p1 p2 > 5 then ["Разные жизненные пути"] else []) ++
      (if soulDiff p1 p2 > 5 then ["Разные эмоциональные потребности"] else []) ++
      (if p1.arcanes.master_number.tm_type ≠ p2.arcanes.master_number.tm_type then
        ["Противоположные энергетические типы (Инь/Ян)"] else []) }

/-- `calculate_compatibility` from the source: compute both profiles; if
either fails the whole operation fails (the source reports which person's
input was invalid; `Option` keeps just the failure). -/
def calculate_compatibility (b1 f1 b2 f2 : List Char) :
    Option CompatibilityResult :=
  match calculate_numerology_advanced b1 f1, calculate_numerology_advanced b2 f2 with
  | some p1, some p2 => some (compatFrom p1 p2)
  | _, _ => none

/-- The predicate "is a valid arcane index": an integer in [1, 22]. -/
def arcaneIndexOK (n : ℤ) : Prop := 1 ≤ n ∧ n ≤ 22

/-- The status scan restarted part-way: scanning the candidates
`[s, s+1, ..., s+n-1]` with current best `b` (whose distance is already
recorded).  `stArcane` is this scan with `b = 1` after the loop's first
iteration. -/
def stScanFrom (t : ℚ) (s : ℤ) (n : ℕ) (b : ℤ) : ℤ :=
  (stLoop t (intsFrom s n) (b, some (stDiff t b))).1

/-! Bridges from the explicitly-computable `abs`/`min`/`floor` used in the
definitions to their Mathlib counterparts. -/

theorem intAbs_eq_abs (n : ℤ) : intAbs n = |n| := by
  unfold intAbs
  split
  · exact (abs_of_neg (by assumption)).symm
  · exact (abs_of_nonneg (by omega)).symm

theorem ratAbs_eq_abs (q : ℚ) : ratAbs q = |q| := by
  unfold ratAbs
  split
  · exact (abs_of_neg (by assumption)).symm
  · next h => exact (abs_of_nonneg (not_lt.mp h)).symm

theorem ratMin_eq_min (a b : ℚ) : ratMin a b = min a b := (min_def a b).symm

theorem ratFloor_eq_floor (q : ℚ) : ratFloor q = ⌊q⌋ := by
  rw [Rat.floor_def]; rfl

/-! Bounds for the fuelled subtraction loop of `reduce_to_arcane`. -/

theorem reduceAux_mem : ∀ (fuel : ℕ) (n : ℤ), 0 ≤ n → n ≤ (fuel : ℤ) →
    0 ≤ reduceAux fuel n ∧ reduceAux fuel n ≤ 22 := by
  intro fuel
  induction fuel with
  | zero => intro n h0 h1; simp only [reduceAux]; omega
  | succ k ih =>
    intro n h0 h1
    simp only [reduceAux]
    split
    · exact ih (n - 22) (by omega) (by push_cast at h1 ⊢; omega)
    · omega

/-- `reduce_to_arcane` sends every non-negative integer into [1, 22]. -/
theorem reduce_to_arcane_mem (n : ℤ) (h : 0 ≤ n) : arcaneIndexOK (reduce_to_arcane n) := by
  unfold reduce_to_arcane arcaneIndexOK
  have hb := reduceAux_mem n.toNat n h (by omega)
  dsimp only
  split <;> omega

/-- `reduce_to_arcane` leaves every negative integer unchanged. -/
theorem reduce_to_arcane_of_neg (n : ℤ) (h : n < 0) : reduce_to_arcane n = n := by
  unfold reduce_to_arcane
  have ht : n.toNat = 0 := by omega
  rw [ht]
  dsimp only [reduceAux]
  split <;> omega

/-! Validity of a parsed birthdate. -/

theorem daysInMonth_le (y m : ℕ) : daysInMonth y m ≤ 31 := by
  unfold daysInMonth
  split
  · split <;> omega
  · split <;> omega

theorem mkValidDate_valid {d m y : ℕ} {dp : DateParts}
    (h : mkValidDate d m y = some dp) :
    1 ≤ dp.day ∧ dp.day ≤ 31 ∧ 1 ≤ dp.month ∧ dp.month ≤ 12 ∧ 1 ≤ dp.year := by
  unfold mkValidDate at h
  split at h
  · next hc =>
    cases h
    have := daysInMonth_le y m
    simp only
    omega
  · cases h

theorem parseTriple_valid {ds ms ys : List Char} {dp : DateParts}
    (h : parseTriple ds ms ys = some dp) :
    1 ≤ dp.day ∧ dp.day ≤ 31 ∧ 1 ≤ dp.month ∧ dp.month ≤ 12 ∧ 1 ≤ dp.year := by
  unfold parseTriple at h
  split at h
  · exact mkValidDate_valid h
  · cases h

theorem parseBirthdate_valid {s : List Char} {dp : DateParts}
    (h : parseBirthdate s = some dp) :
    1 ≤ dp.day ∧ dp.day ≤ 31 ∧ 1 ≤ dp.month ∧ dp.month ≤ 12 ∧ 1 ≤ dp.year := by
  unfold parseBirthdate at h
  split at h
  · split at h
    · exact parseTriple_valid h
    · cases h
  · split at h
    · exact parseTriple_valid h
    · cases h

/-! The status scan: the loop returns the first minimiser of `stDiff`
over the scanned range. -/

theorem stScanFrom_zero (t : ℚ) (s b : ℤ) : stScanFrom t s 0 b = b := rfl

theorem stScanFrom_succ (t : ℚ) (s b : ℤ) (n : ℕ) :
    stScanFrom t s (n + 1) b =
      if stDiff t s < stDiff t b then stScanFrom t (s + 1) n s
      else stScanFrom t (s + 1) n b := by
  simp only [stScanFrom, intsFrom, stLoop]
  split <;> rfl

theorem stScanFrom_spec (t : ℚ) :
    ∀ (n : ℕ) (s b : ℤ), b < s →
      (stScanFrom t s n b = b ∨
        (s ≤ stScanFrom t s n b ∧ stScanFrom t s n b < s + n)) ∧
      stDiff t (stScanFrom t s n b) ≤ stDiff t b ∧
      (∀ a : ℤ, s ≤ a → a < s + n → stDiff t (stScanFrom t s n b) ≤ stDiff t a) ∧
      (stScanFrom t s n b ≠ b → stDiff t (stScanFrom t s n b) < stDiff t b) ∧
      (∀ a : ℤ, s ≤ a → a < s + n → a < stScanFrom t s n b →
        stDiff t (stScanFrom t s n b) < stDiff t a) := by
  intro n
  induction n with
  | zero =>
    intro s b hbs
    rw [stScanFrom_zero]
    refine ⟨Or.inl rfl, le_refl _, ?_, fun h => absurd rfl h, ?_⟩
    · intro a ha1 ha2; omega
    · intro a ha1 ha2; omega
  | succ k ih =>
    intro s b hbs
    rw [stScanFrom_succ]
    split
    · next hlt =>
      obtain ⟨hmem, hleb, hmin, hne, hfirst⟩ := ih (s + 1) s (by omega)
      have hles : stDiff t (stScanFrom t (s + 1) k s) ≤ stDiff t s := hleb
      refine ⟨?_, le_of_lt (lt_of_le_of_lt hles hlt), ?_, fun _ => lt_of_le_of_lt hles hlt, ?_⟩
      · rcases hmem with h | h
        · exact Or.inr (by omega)
        · exact Or.inr (by omega)
      · intro a ha1 ha2
        rcases eq_or_lt_of_le ha1 with rfl | ha1'
        · exact hles
        · exact hmin a (by omega) (by push_cast at ha2 ⊢; omega)
      · intro a ha1 ha2 ha3
        rcases eq_or_lt_of_le ha1 with rfl | ha1'
        · refine hne ?_
          intro hc
          rw [hc] at ha3
          omega
        · exact hfirst a (by omega) (by push_cast at ha2 ⊢; omega) ha3
    · next hge =>
      have hsb : stDiff t b ≤ stDiff t s := not_lt.mp hge
      obtain ⟨hmem, hleb, hmin, hne, hfirst⟩ := ih (s + 1) b (by omega)
      refine ⟨?_, hleb, ?_, hne, ?_⟩
      · rcases hmem with h | h
        · exact Or.inl h
        · exact Or.inr (by omega)
      · intro a ha1 ha2
        rcases eq_or_lt_of_le ha1 with rfl | ha1'
        · exact le_trans hleb hsb
        · exact hmin a (by omega) (by push_cast at ha2 ⊢; omega)
      · intro a ha1 ha2 ha3
        rcases eq_or_lt_of_le ha1 with rfl | ha1'
        · have hrb : stScanFrom t (s + 1) k b ≠ b := by
            intro hcontra
            rw [hcontra] at ha3
            omega
          exact lt_of_lt_of_le (hne hrb) hsb
        · exact hfirst a (by omega) (by push_cast at ha2 ⊢; omega) ha3

theorem stArcane_eq_scan (dp : DateParts) (fio : List Char) :
    stArcane dp fio = stScanFrom (stPercent dp fio) 2 21 1 := rfl

/-- The status arcane is in [1, 22], minimises the scan distance over
1..22, and is the first such minimiser. -/
theorem stArcane_spec (dp : DateParts) (fio : List Char) :
    arcaneIndexOK (stArcane dp fio) ∧
    (∀ a : ℤ, 1 ≤ a → a ≤ 22 →
      stDiff (stPercent dp fio) (stArcane dp fio) ≤ stDiff (stPercent dp fio) a) ∧
    (∀ a : ℤ, 1 ≤ a → a < stArcane dp fio →
      stDiff (stPercent dp fio) (stArcane dp fio) < stDiff (stPercent dp fio) a) := by
  rw [stArcane_eq_scan]
  obtain ⟨hmem, hleb, hmin, hne, hfirst⟩ :=
    stScanFrom_spec (stPercent dp fio) 21 2 1 (by omega)
  refine ⟨?_, ?_, ?_⟩
  · unfold arcaneIndexOK
    rcases hmem with h | h
    · omega
    · omega
  · intro a ha1 ha2
    rcases eq_or_lt_of_le ha1 with rfl | ha1'
    · exact hleb
    · exact hmin a (by omega) (by omega)
  · intro a ha1 ha3
    rcases eq_or_lt_of_le ha1 with rfl | ha1'
    · refine hne ?_
      intro hc
      rw [hc] at ha3
      omega
    · have hub : stScanFrom (stPercent dp fio) 2 21 1 < 2 + (21 : ℕ) := by
        rcases hmem with h | h
        · omega
        · omega
      exact hfirst a (by omega) (by omega) ha3

/-- Unfolding `calculate_numerology_advanced` on a successful parse. -/
theorem calculate_eq_some_iff {b f : List Char} {p : NumerologyResult} :
    calculate_numerology_advanced b f = some p ↔
      ∃ dp, parseBirthdate b = some dp ∧ p = profileFrom dp f := by
  unfold calculate_numerology_advanced
  rw [Option.map_eq_some']
  constructor
  · rintro ⟨dp, h1, h2⟩
    exact ⟨dp, h1, h2.symm⟩
  · rintro ⟨dp, h1, h2⟩
    exact ⟨dp, h1, h2.symm⟩

/-- `calculate_numerology_advanced` fails exactly when the parse fails. -/
theorem calculate_eq_none_iff {b f : List Char} :
    calculate_numerology_advanced b f = none ↔ parseBirthdate b = none := by
  unfold calculate_numerology_advanced
  exact Option.map_eq_none'

theorem masterNumberOf_eq (fio : List Char) :
    masterNumberOf fio = reduce_to_arcane ((letterTotal fio : ℕ) : ℤ) := rfl

theorem masterNumberOf_mem (fio : List Char) : arcaneIndexOK (masterNumberOf fio) := by
  rw [masterNumberOf_eq]
  exact reduce_to_arcane_mem _ (Int.natCast_nonneg _)

theorem dtArcane_mem (dp : DateParts) : arcaneIndexOK (dtArcane dp) :=
  reduce_to_arcane_mem _ (Int.natCast_nonneg _)

theorem gtArcane_mem (dp : DateParts) : arcaneIndexOK (gtArcane dp) :=
  reduce_to_arcane_mem _ (Int.natCast_nonneg _)

theorem mtArcane_mem {dp : DateParts} (hm1 : 1 ≤ dp.month) (hm12 : dp.month ≤ 12) :
    arcaneIndexOK (mtArcane dp) := by
  unfold mtArcane arcaneIndexOK
  omega

/-- Every arcane component of the profile computed from a validly parsed
date lies in [1, 22]. -/
theorem profile_arcanes_mem (dp : DateParts) (fio : List Char)
    (hm1 : 1 ≤ dp.month) (hm12 : dp.month ≤ 12) :
    arcaneIndexOK (dtArcane dp) ∧ arcaneIndexOK (mtArcane dp) ∧
    arcaneIndexOK (gtArcane dp) ∧ arcaneIndexOK (masterNumberOf fio) ∧
    arcaneIndexOK (zkArcane dp) ∧ arcaneIndexOK (pchArcane dp) ∧
    arcaneIndexOK (kchArcane dp) ∧ arcaneIndexOK (prArcane dp) ∧
    arcaneIndexOK (szArcane dp) ∧ arcaneIndexOK (opvArcane dp) ∧
    arcaneIndexOK (ebArcane dp) ∧ arcaneIndexOK (bsArcane dp fio) ∧
    arcaneIndexOK (stArcane dp fio) := by
  obtain ⟨hdt1, hdt2⟩ := dtArcane_mem dp
  obtain ⟨hgt1, hgt2⟩ := gtArcane_mem dp
  obtain ⟨hmt1, hmt2⟩ := mtArcane_mem hm1 hm12
  obtain ⟨hmn1, hmn2⟩ := masterNumberOf_mem fio
  refine ⟨⟨hdt1, hdt2⟩, ⟨hmt1, hmt2⟩, ⟨hgt1, hgt2⟩, ⟨hmn1, hmn2⟩, ?_, ?_, ?_, ?_, ?_, ?_, ?_, ?_, ?_⟩
  · exact reduce_to_arcane_mem _ (by omega)
  · exact reduce_to_arcane_mem _ (by omega)
  · refine reduce_to_arcane_mem _ ?_
    unfold kchValue
    dsimp only
    split <;> omega
  · exact reduce_to_arcane_mem _ (by omega)
  · exact reduce_to_arcane_mem _ (by omega)
  · refine reduce_to_arcane_mem _ ?_
    unfold opvValue
    dsimp only
    split <;> omega
  · refine reduce_to_arcane_mem _ ?_
    unfold ebValue
    dsimp only
    split <;> omega
  · exact reduce_to_arcane_mem _ (by omega)
  · exact (stArcane_spec dp fio).1

theorem stDiff_eq (t : ℚ) (a : ℤ) : stDiff t a = abs (get_arcane_percent a - abs t) := by
  unfold stDiff
  rw [ratAbs_eq_abs, ratAbs_eq_abs]

theorem roundHalfEven_intCast (z : ℤ) : roundHalfEven ((z : ℤ) : ℚ) = z := by
  unfold roundHalfEven
  rw [ratFloor_eq_floor, Int.floor_intCast]
  dsimp only
  rw [if_pos (by norm_num)]

theorem roundHalfEven_bounds {q : ℚ} {lo hi : ℤ} (h1 : (lo : ℚ) ≤ q) (h2 : q ≤ (hi : ℚ)) :
    lo ≤ roundHalfEven q ∧ roundHalfEven q ≤ hi := by
  unfold roundHalfEven
  rw [ratFloor_eq_floor]
  dsimp only
  have hlo : lo ≤ ⌊q⌋ := Int.le_floor.mpr h1
  have hhi : ⌊q⌋ ≤ hi := by
    have h := Int.floor_le_floor h2
    rwa [Int.floor_intCast] at h
  split
  · exact ⟨hlo, hhi⟩
  · next hge =>
    have hq : 1 / 2 ≤ q - (⌊q⌋ : ℚ) := not_lt.mp hge
    have hfhi : ⌊q⌋ < hi := by
      have hc : (⌊q⌋ : ℚ) + 1 / 2 ≤ (hi : ℚ) := by linarith
      by_contra hcon
      push_neg at hcon
      have hcast : (hi : ℚ) ≤ (⌊q⌋ : ℚ) := by exact_mod_cast hcon
      linarith
    split
    · exact ⟨by omega, by omega⟩
    · split
      · exact ⟨hlo, hhi⟩
      · exact ⟨by omega, by omega⟩

theorem round1_bounds {q : ℚ} (h1 : -(1 / 2) ≤ q) (h2 : q ≤ 10) :
    -(1 / 2) ≤ round1 q ∧ round1 q ≤ 10 := by
  unfold round1
  have hb := @roundHalfEven_bounds (q * 10) (-5) 100 (by push_cast; linarith)
    (by push_cast; linarith)
  constructor
  · have hc : ((-5 : ℤ) : ℚ) ≤ ((roundHalfEven (q * 10) : ℤ) : ℚ) := by exact_mod_cast hb.1
    push_cast at hc ⊢
    linarith
  · have hc : ((roundHalfEven (q * 10) : ℤ) : ℚ) ≤ ((100 : ℤ) : ℚ) := by exact_mod_cast hb.2
    push_cast at hc ⊢
    linarith

theorem intAbs_sub_comm (a b : ℤ) : intAbs (a - b) = intAbs (b - a) := by
  rw [intAbs_eq_abs, intAbs_eq_abs, abs_sub_comm]

theorem lifePathScore_comm (p q : NumerologyResult) :
    lifePathScore p q = lifePathScore q p := by
  unfold lifePathScore lifePathDiff
  rw [intAbs_sub_comm]

theorem emotionalScore_comm (p q : NumerologyResult) :
    emotionalScore p q = emotionalScore q p := by
  unfold emotionalScore soulDiff
  rw [intAbs_sub_comm]

theorem intellectualScore_comm (p q : NumerologyResult) :
    intellectualScore p q = intellectualScore q p := by
  unfold intellectualScore masterDiff
  rw [intAbs_sub_comm]

theorem physicalScore_comm (p q : NumerologyResult) :
    physicalScore p q = physicalScore q p := by
  unfold physicalScore persDiff
  rw [intAbs_sub_comm]

theorem totalScore_comm (p q : NumerologyResult) : totalScore p q = totalScore q p := by
  unfold totalScore
  rw [lifePathScore_comm, emotionalScore_comm, intellectualScore_comm, physicalScore_comm]

/-- Unfolding `calculate_compatibility` on two successful profiles. -/
theorem compat_eq_some_iff {b1 f1 b2 f2 : List Char} {r : CompatibilityResult} :
    calculate_compatibility b1 f1 b2 f2 = some r ↔
      ∃ p1 p2, calculate_numerology_advanced b1 f1 = some p1 ∧
        calculate_numerology_advanced b2 f2 = some p2 ∧ r = compatFrom p1 p2 := by
  unfold calculate_compatibility
  cases h1 : calculate_numerology_advanced b1 f1 with
  | none => simp
  | some p1 =>
    cases h2 : calculate_numerology_advanced b2 f2 with
    | none => simp
    | some p2 =>
      constructor
      · intro h
        cases h
        exact ⟨p1, p2, rfl, rfl, rfl⟩
      · rintro ⟨q1, q2, hq1, hq2, rfl⟩
        cases hq1
        cases hq2
        rfl

/-- C2: `reduce_to_arcane n` lies in [1, 22] for every non-negative
integer n; in particular it maps 0 to 22, 22 to 22, 23 to 1, 44 to 22 and
45 to 1. -/
theorem c2_reduce_to_arcane_range :
    (∀ n : ℤ, 0 ≤ n → 1 ≤ reduce_to_arcane n ∧ reduce_to_arcane n ≤ 22) ∧
    reduce_to_arcane 0 = 22 ∧ reduce_to_arcane 22 = 22 ∧
    reduce_to_arcane 23 = 1 ∧ reduce_to_arcane 44 = 22 ∧ reduce_to_arcane 45 = 1 :=
  ⟨fun n h => reduce_to_arcane_mem n h, by decide, by decide, by decide, by decide, by decide⟩

/-- C2 witness: the range statement applied at the concrete input 7. -/
theorem c2_witness : 1 ≤ reduce_to_arcane 7 ∧ reduce_to_arcane 7 ≤ 22 :=
  c2_reduce_to_arcane_range.1 7 (by decide)

/-- C3 counterexample: `reduce_to_arcane` does not normalise a negative
input before its subtraction loop; at n = -1 it returns -1, which is not
in [1, 22]. -/
theorem c3_counterexample : reduce_to_arcane (-1) = -1 ∧
    ¬(1 ≤ reduce_to_arcane (-1) ∧ reduce_to_arcane (-1) ≤ 22) := by
  refine ⟨by decide, ?_⟩
  intro h
  have := h.1
  rw [(by decide : reduce_to_arcane (-1) = -1)] at this
  omega

/-- C3 amended: `reduce_to_arcane` performs no normalisation of negative
inputs — it returns every negative integer unchanged (so outside
[1, 22]) — and its result lies in [1, 22] exactly for the non-negative
integers. -/
theorem c3_amended_no_negative_normalisation :
    ∀ n : ℤ, (n < 0 → reduce_to_arcane n = n) ∧
      (0 ≤ n → 1 ≤ reduce_to_arcane n ∧ reduce_to_arcane n ≤ 22) :=
  fun n => ⟨reduce_to_arcane_of_neg n, reduce_to_arcane_mem n⟩

/-- C3 witness: the amended statement applied at the concrete input -7. -/
theorem c3_witness : reduce_to_arcane (-7) = -7 :=
  (c3_amended_no_negative_normalisation (-7)).1 (by decide)

/-- C4: the profile calculator fails (returns no profile) exactly when
the birthdate does not parse as a valid calendar date in a supported
format; in particular it fails for "30.02.2000" and "31.11.2000" and
succeeds for the leap day "29.02.2000". -/
theorem c4_invalid_date_iff :
    (∀ b f : List Char,
      calculate_numerology_advanced b f = none ↔ parseBirthdate b = none) ∧
    calculate_numerology_advanced "30.02.2000".toList "A".toList = none ∧
    calculate_numerology_advanced "31.11.2000".toList "A".toList = none ∧
    (calculate_numerology_advanced "29.02.2000".toList "A".toList).isSome = true :=
  ⟨fun _ _ => calculate_eq_none_iff, rfl, rfl, rfl⟩

/-- C5: a valid birthdate never fails for any name string; and a name
whose unique-letter sequence is empty has letter total 0 and master
number `reduce_to_arcane 0 = 22`. -/
theorem c5_name_edge_cases (b f : List Char) (dp : DateParts)
    (h : parseBirthdate b = some dp) :
    (calculate_numerology_advanced b f).isSome = true ∧
    ((calculate_master_number f).2 = [] →
      letterTotal f = 0 ∧ masterNumberOf f = reduce_to_arcane 0 ∧ masterNumberOf f = 22) := by
  constructor
  · unfold calculate_numerology_advanced
    rw [h]
    rfl
  · intro hempty
    have ht : letterTotal f = 0 := by
      unfold letterTotal
      rw [hempty]
      rfl
    refine ⟨ht, ?_, ?_⟩
    · rw [masterNumberOf_eq, ht]
      decide
    · rw [masterNumberOf_eq, ht]
      decide

/-- C5 witness: the statement applied at the date "01.01.2000" and the
letterless name "123". -/
theorem c5_witness :
    (calculate_numerology_advanced "01.01.2000".toList "123".toList).isSome = true ∧
    ((calculate_master_number "123".toList).2 = [] →
      letterTotal "123".toList = 0 ∧
      masterNumberOf "123".toList = reduce_to_arcane 0 ∧
      masterNumberOf "123".toList = 22) :=
  c5_name_edge_cases "01.01.2000".toList "123".toList ⟨1, 1, 2000⟩ rfl

/-- C6: for birthdate "01.01.1990" and name "Иванов Иван" the profile has
unique letters "ивано", letter total 18, master number 18, day arcane 1,
month arcane 1 and year arcane 19 (year digit sum 1+9+9+0 = 19 fed once
into the arcane reduction). -/
theorem c6_reference_example :
    (calculate_master_number "Иванов Иван".toList).2 = "ивано".toList ∧
    letterTotal "Иванов Иван".toList = 18 ∧
    masterNumberOf "Иванов Иван".toList = 18 ∧
    year_digit_sum 1990 = 19 ∧
    (calculate_numerology_advanced "01.01.1990".toList "Иванов Иван".toList).isSome = true ∧
    ((calculate_numerology_advanced "01.01.1990".toList "Иванов Иван".toList).getD
        default).raw_data.unique_letters = "ивано".toList ∧
    ((calculate_numerology_advanced "01.01.1990".toList "Иванов Иван".toList).getD
        default).arcanes.dt.arcane = 1 ∧
    ((calculate_numerology_advanced "01.01.1990".toList "Иванов Иван".toList).getD
        default).arcanes.mt.arcane = 1 ∧
    ((calculate_numerology_advanced "01.01.1990".toList "Иванов Иван".toList).getD
        default).arcanes.gt.arcane = 19 ∧
    ((calculate_numerology_advanced "01.01.1990".toList "Иванов Иван".toList).getD
        default).arcanes.master_number.arcane = 18 :=
  ⟨by decide, by decide, by decide, by decide, rfl, by decide, by decide, by decide,
    by decide, by decide⟩

/-- C1: every arcane index of a successfully computed profile — dt, mt,
gt, master_number, zk, pch, kch, pr, sz, opv, eb, bs and st — lies in
[1, 22]. -/
theorem c1_profile_arcanes_in_range (b f : List Char) (p : NumerologyResult)
    (h : calculate_numerology_advanced b f = some p) :
    arcaneIndexOK p.arcanes.dt.arcane ∧ arcaneIndexOK p.arcanes.mt.arcane ∧
    arcaneIndexOK p.arcanes.gt.arcane ∧ arcaneIndexOK p.arcanes.master_number.arcane ∧
    arcaneIndexOK p.arcanes.zk.arcane ∧ arcaneIndexOK p.arcanes.pch.arcane ∧
    arcaneIndexOK p.arcanes.kch.arcane ∧ arcaneIndexOK p.arcanes.pr.arcane ∧
    arcaneIndexOK p.arcanes.sz.arcane ∧ arcaneIndexOK p.arcanes.opv.arcane ∧
    arcaneIndexOK p.arcanes.eb.arcane ∧ arcaneIndexOK p.arcanes.bs.arcane ∧
    arcaneIndexOK p.arcanes.st.arcane := by
  obtain ⟨dp, hparse, rfl⟩ := calculate_eq_some_iff.mp h
  obtain ⟨_, _, hm1, hm12, _⟩ := parseBirthdate_valid hparse
  exact profile_arcanes_mem dp f hm1 hm12

/-- C1 witness: the range statement at the concrete profile computed from
"01.01.1990" and "Иванов Иван". -/
theorem c1_witness :
    arcaneIndexOK (profileFrom ⟨1, 1, 1990⟩ "Иванов Иван".toList).arcanes.dt.arcane ∧
    arcaneIndexOK (profileFrom ⟨1, 1, 1990⟩ "Иванов Иван".toList).arcanes.mt.arcane ∧
    arcaneIndexOK (profileFrom ⟨1, 1, 1990⟩ "Иванов Иван".toList).arcanes.gt.arcane ∧
    arcaneIndexOK (profileFrom ⟨1, 1, 1990⟩ "Иванов Иван".toList).arcanes.master_number.arcane ∧
    arcaneIndexOK (profileFrom ⟨1, 1, 1990⟩ "Иванов Иван".toList).arcanes.zk.arcane ∧
    arcaneIndexOK (profileFrom ⟨1, 1, 1990⟩ "Иванов Иван".toList).arcanes.pch.arcane ∧
    arcaneIndexOK (profileFrom ⟨1, 1, 1990⟩ "Иванов Иван".toList).arcanes.kch.arcane ∧
    arcaneIndexOK (profileFrom ⟨1, 1, 1990⟩ "Иванов Иван".toList).arcanes.pr.arcane ∧
    arcaneIndexOK (profileFrom ⟨1, 1, 1990⟩ "Иванов Иван".toList).arcanes.sz.arcane ∧
    arcaneIndexOK (profileFrom ⟨1, 1, 1990⟩ "Иванов Иван".toList).arcanes.opv.arcane ∧
    arcaneIndexOK (profileFrom ⟨1, 1, 1990⟩ "Иванов Иван".toList).arcanes.eb.arcane ∧
    arcaneIndexOK (profileFrom ⟨1, 1, 1990⟩ "Иванов Иван".toList).arcanes.bs.arcane ∧
    arcaneIndexOK (profileFrom ⟨1, 1, 1990⟩ "Иванов Иван".toList).arcanes.st.arcane :=
  c1_profile_arcanes_in_range "01.01.1990".toList "Иванов Иван".toList
    (profileFrom ⟨1, 1, 1990⟩ "Иванов Иван".toList) rfl

/-- C7: in every computed profile the status percentage equals
`(pct(master) + pct(pch))/2 - (pct(bs) + pct(kch))/2`, and the status
arcane is in [1, 22], minimises `|pct(a) - |status_pct||` over a = 1..22,
and is the first minimiser in increasing scan order (every smaller arcane
has strictly larger distance). -/
theorem c7_status_nearest_match (b f : List Char) (p : NumerologyResult)
    (h : calculate_numerology_advanced b f = some p) :
    p.arcanes.st.percent =
      (get_arcane_percent p.arcanes.master_number.arcane +
        get_arcane_percent p.arcanes.pch.arcane) / 2 -
      (get_arcane_percent p.arcanes.bs.arcane +
        get_arcane_percent p.arcanes.kch.arcane) / 2 ∧
    arcaneIndexOK p.arcanes.st.arcane ∧
    (∀ a : ℤ, 1 ≤ a → a ≤ 22 →
      abs (get_arcane_percent p.arcanes.st.arcane - abs p.arcanes.st.percent) ≤
        abs (get_arcane_percent a - abs p.arcanes.st.percent)) ∧
    (∀ a : ℤ, 1 ≤ a → a < p.arcanes.st.arcane →
      abs (get_arcane_percent p.arcanes.st.arcane - abs p.arcanes.st.percent) <
        abs (get_arcane_percent a - abs p.arcanes.st.percent)) := by
  obtain ⟨dp, hparse, rfl⟩ := calculate_eq_some_iff.mp h
  rw [show (profileFrom dp f).arcanes.st.arcane = stArcane dp f from rfl,
    show (profileFrom dp f).arcanes.st.percent = stPercent dp f from rfl,
    show (profileFrom dp f).arcanes.master_number.arcane = masterNumberOf f from rfl,
    show (profileFrom dp f).arcanes.pch.arcane = pchArcane dp from rfl,
    show (profileFrom dp f).arcanes.bs.arcane = bsArcane dp f from rfl,
    show (profileFrom dp f).arcanes.kch.arcane = kchArcane dp from rfl]
  obtain ⟨h1, h2, h3⟩ := stArcane_spec dp f
  refine ⟨rfl, h1, ?_, ?_⟩
  · simpa only [stDiff_eq] using h2
  · simpa only [stDiff_eq] using h3

/-- C7 witness: the status characterisation at the concrete profile
computed from "01.01.1990" and "Иванов Иван". -/
theorem c7_witness :
    (profileFrom ⟨1, 1, 1990⟩ "Иванов Иван".toList).arcanes.st.percent =
      (get_arcane_percent (profileFrom ⟨1, 1, 1990⟩ "Иванов Иван".toList).arcanes.master_number.arcane +
        get_arcane_percent (profileFrom ⟨1, 1, 1990⟩ "Иванов Иван".toList).arcanes.pch.arcane) / 2 -
      (get_arcane_percent (profileFrom ⟨1, 1, 1990⟩ "Иванов Иван".toList).arcanes.bs.arcane +
        get_arcane_percent (profileFrom ⟨1, 1, 1990⟩ "Иванов Иван".toList).arcanes.kch.arcane) / 2 ∧
    arcaneIndexOK (profileFrom ⟨1, 1, 1990⟩ "Иванов Иван".toList).arcanes.st.arcane ∧
    (∀ a : ℤ, 1 ≤ a → a ≤ 22 →
      abs (get_arcane_percent (profileFrom ⟨1, 1, 1990⟩ "Иванов Иван".toList).arcanes.st.arcane -
          abs (profileFrom ⟨1, 1, 1990⟩ "Иванов Иван".toList).arcanes.st.percent) ≤
        abs (get_arcane_percent a - abs (profileFrom ⟨1, 1, 1990⟩ "Иванов Иван".toList).arcanes.st.percent)) ∧
    (∀ a : ℤ, 1 ≤ a → a < (profileFrom ⟨1, 1, 1990⟩ "Иванов Иван".toList).arcanes.st.arcane →
      abs (get_arcane_percent (profileFrom ⟨1, 1, 1990⟩ "Иванов Иван".toList).arcanes.st.arcane -
          abs (profileFrom ⟨1, 1, 1990⟩ "Иванов Иван".toList).arcanes.st.percent) <
        abs (get_arcane_percent a - abs (profileFrom ⟨1, 1, 1990⟩ "Иванов Иван".toList).arcanes.st.percent)) :=
  c7_status_nearest_match "01.01.1990".toList "Иванов Иван".toList
    (profileFrom ⟨1, 1, 1990⟩ "Иванов Иван".toList) rfl

theorem score_bounds {x y : ℤ} (hx : arcaneIndexOK x) (hy : arcaneIndexOK y) :
    -(1 / 2) ≤ ratMin 10 (10 - (intAbs (x - y) : ℚ) * 0.5) ∧
    ratMin 10 (10 - (intAbs (x - y) : ℚ) * 0.5) ≤ 10 := by
  obtain ⟨hx1, hx2⟩ := hx
  obtain ⟨hy1, hy2⟩ := hy
  have hd : 0 ≤ intAbs (x - y) ∧ intAbs (x - y) ≤ 21 := by
    unfold intAbs
    split <;> omega
  have hdq : (intAbs (x - y) : ℚ) ≤ 21 := by exact_mod_cast hd.2
  rw [ratMin_eq_min]
  constructor
  · refine le_min (by norm_num) ?_
    linarith
  · exact min_le_left _ _

theorem totalScore_bounds {p q : NumerologyResult}
    (hl1 : -(1 / 2) ≤ lifePathScore p q) (hl2 : lifePathScore p q ≤ 10)
    (he1 : -(1 / 2) ≤ emotionalScore p q) (he2 : emotionalScore p q ≤ 10)
    (hi1 : -(1 / 2) ≤ intellectualScore p q) (hi2 : intellectualScore p q ≤ 10)
    (hp1 : -(1 / 2) ≤ physicalScore p q) (hp2 : physicalScore p q ≤ 10) :
    -(1 / 2) ≤ totalScore p q ∧ totalScore p q ≤ 10 := by
  unfold totalScore
  constructor <;> nlinarith

/-- C8: the four compatibility sub-scores and the total are unchanged
when the two (birthdate, name) pairs are swapped. -/
theorem c8_compatibility_symmetry (b1 f1 b2 f2 : List Char)
    (r r' : CompatibilityResult)
    (h : calculate_compatibility b1 f1 b2 f2 = some r)
    (h' : calculate_compatibility b2 f2 b1 f1 = some r') :
    r.life_path = r'.life_path ∧ r.emotional = r'.emotional ∧
    r.intellectual = r'.intellectual ∧ r.physical = r'.physical ∧
    r.total = r'.total := by
  obtain ⟨p1, p2, hp1, hp2, rfl⟩ := compat_eq_some_iff.mp h
  obtain ⟨q2, q1, hq2, hq1, rfl⟩ := compat_eq_some_iff.mp h'
  rw [hp1] at hq1
  rw [hp2] at hq2
  cases hq1
  cases hq2
  refine ⟨?_, ?_, ?_, ?_, ?_⟩
  · show round1 (lifePathScore p1 p2) = round1 (lifePathScore p2 p1)
    rw [lifePathScore_comm]
  · show round1 (emotionalScore p1 p2) = round1 (emotionalScore p2 p1)
    rw [emotionalScore_comm]
  · show round1 (intellectualScore p1 p2) = round1 (intellectualScore p2 p1)
    rw [intellectualScore_comm]
  · show round1 (physicalScore p1 p2) = round1 (physicalScore p2 p1)
    rw [physicalScore_comm]
  · show round1 (totalScore p1 p2) = round1 (totalScore p2 p1)
    rw [totalScore_comm]

/-- C8 witness: the symmetry statement at two concrete pairs. -/
theorem c8_witness :
    (compatFrom (profileFrom ⟨1, 1, 1990⟩ "Иванов Иван".toList)
        (profileFrom ⟨14, 3, 1995⟩ "КАРЛЮК ОЛЬГА ЕВГЕНЬЕВНА".toList)).life_path =
      (compatFrom (profileFrom ⟨14, 3, 1995⟩ "КАРЛЮК ОЛЬГА ЕВГЕНЬЕВНА".toList)
        (profileFrom ⟨1, 1, 1990⟩ "Иванов Иван".toList)).life_path ∧
    (compatFrom (profileFrom ⟨1, 1, 1990⟩ "Иванов Иван".toList)
        (profileFrom ⟨14, 3, 1995⟩ "КАРЛЮК ОЛЬГА ЕВГЕНЬЕВНА".toList)).emotional =
      (compatFrom (profileFrom ⟨14, 3, 1995⟩ "КАРЛЮК ОЛЬГА ЕВГЕНЬЕВНА".toList)
        (profileFrom ⟨1, 1, 1990⟩ "Иванов Иван".toList)).emotional ∧
    (compatFrom (profileFrom ⟨1, 1, 1990⟩ "Иванов Иван".toList)
        (profileFrom ⟨14, 3, 1995⟩ "КАРЛЮК ОЛЬГА ЕВГЕНЬЕВНА".toList)).intellectual =
      (compatFrom (profileFrom ⟨14, 3, 1995⟩ "КАРЛЮК ОЛЬГА ЕВГЕНЬЕВНА".toList)
        (profileFrom ⟨1, 1, 1990⟩ "Иванов Иван".toList)).intellectual ∧
    (compatFrom (profileFrom ⟨1, 1, 1990⟩ "Иванов Иван".toList)
        (profileFrom ⟨14, 3, 1995⟩ "КАРЛЮК ОЛЬГА ЕВГЕНЬЕВНА".toList)).physical =
      (compatFrom (profileFrom ⟨14, 3, 1995⟩ "КАРЛЮК ОЛЬГА ЕВГЕНЬЕВНА".toList)
        (profileFrom ⟨1, 1, 1990⟩ "Иванов Иван".toList)).physical ∧
    (compatFrom (profileFrom ⟨1, 1, 1990⟩ "Иванов Иван".toList)
        (profileFrom ⟨14, 3, 1995⟩ "КАРЛЮК ОЛЬГА ЕВГЕНЬЕВНА".toList)).total =
      (compatFrom (profileFrom ⟨14, 3, 1995⟩ "КАРЛЮК ОЛЬГА ЕВГЕНЬЕВНА".toList)
        (profileFrom ⟨1, 1, 1990⟩ "Иванов Иван".toList)).total :=
  c8_compatibility_symmetry "01.01.1990".toList "Иванов Иван".toList
    "14.03.1995".toList "КАРЛЮК ОЛЬГА ЕВГЕНЬЕВНА".toList _ _ rfl rfl

/-- C9 counterexample: the sub-scores are not bounded below by 0.  With
birthdate "01.01.2000" for both, the empty name (master number 22) and
the name "А" (master number 1) give master difference 21, so the
intellectual sub-score is min(10, 10 - 0.5·21) = -0.5 < 0. -/
theorem c9_counterexample :
    (calculate_compatibility "01.01.2000".toList "".toList
        "01.01.2000".toList "А".toList).isSome = true ∧
    ((calculate_compatibility "01.01.2000".toList "".toList
        "01.01.2000".toList "А".toList).getD default).intellectual = -(1 / 2) ∧
    ¬(0 ≤ ((calculate_compatibility "01.01.2000".toList "".toList
        "01.01.2000".toList "А".toList).getD default).intellectual) := by
  have hC : calculate_compatibility "01.01.2000".toList "".toList
      "01.01.2000".toList "А".toList =
      some (compatFrom (profileFrom ⟨1, 1, 2000⟩ "".toList)
        (profileFrom ⟨1, 1, 2000⟩ "А".toList)) := rfl
  have hval : ((calculate_compatibility "01.01.2000".toList "".toList
      "01.01.2000".toList "А".toList).getD default).intellectual = -(1 / 2) := by
    rw [hC, Option.getD_some]
    show round1 (intellectualScore (profileFrom ⟨1, 1, 2000⟩ "".toList)
      (profileFrom ⟨1, 1, 2000⟩ "А".toList)) = -(1 / 2)
    have hd : masterDiff (profileFrom ⟨1, 1, 2000⟩ "".toList)
        (profileFrom ⟨1, 1, 2000⟩ "А".toList) = 21 := by decide
    rw [show intellectualScore (profileFrom ⟨1, 1, 2000⟩ "".toList)
        (profileFrom ⟨1, 1, 2000⟩ "А".toList) =
      ratMin 10 (10 - (masterDiff (profileFrom ⟨1, 1, 2000⟩ "".toList)
        (profileFrom ⟨1, 1, 2000⟩ "А".toList) : ℚ) * 0.5) from rfl, hd]
    have h1 : (10 : ℚ) - ((21 : ℤ) : ℚ) * 0.5 = -(1 / 2) := by norm_num
    rw [h1, ratMin_eq_min, min_eq_right (by norm_num : (-(1 / 2) : ℚ) ≤ 10)]
    unfold round1
    have h2 : (-(1 / 2) : ℚ) * 10 = ((-5 : ℤ) : ℚ) := by norm_num
    rw [h2, roundHalfEven_intCast]
    norm_num
  refine ⟨rfl, hval, ?_⟩
  rw [hval]
  norm_num

/-- C9 amended: every compatibility sub-score and the total lie in
[-0.5, 10] (not [0, 10]): each sub-score is min(10, 10 - 0.5·diff) with
diff at most 21, so the lower bound is -0.5, and the convex weighting
keeps the total in the same interval. -/
theorem c9_amended_score_bounds (b1 f1 b2 f2 : List Char)
    (r : CompatibilityResult)
    (h : calculate_compatibility b1 f1 b2 f2 = some r) :
    (-(1 / 2) ≤ r.life_path ∧ r.life_path ≤ 10) ∧
    (-(1 / 2) ≤ r.emotional ∧ r.emotional ≤ 10) ∧
    (-(1 / 2) ≤ r.intellectual ∧ r.intellectual ≤ 10) ∧
    (-(1 / 2) ≤ r.physical ∧ r.physical ≤ 10) ∧
    (-(1 / 2) ≤ r.total ∧ r.total ≤ 10) := by
  obtain ⟨p1, p2, hp1, hp2, rfl⟩ := compat_eq_some_iff.mp h
  obtain ⟨dp1, hparse1, rfl⟩ := calculate_eq_some_iff.mp hp1
  obtain ⟨dp2, hparse2, rfl⟩ := calculate_eq_some_iff.mp hp2
  obtain ⟨_, _, hm1a, hm1b, _⟩ := parseBirthdate_valid hparse1
  obtain ⟨_, _, hm2a, hm2b, _⟩ := parseBirthdate_valid hparse2
  obtain ⟨_, _, _, hmn1, hzk1, hpch1, _, _, hsz1, _, _, _, _⟩ :=
    profile_arcanes_mem dp1 f1 hm1a hm1b
  obtain ⟨_, _, _, hmn2, hzk2, hpch2, _, _, hsz2, _, _, _, _⟩ :=
    profile_arcanes_mem dp2 f2 hm2a hm2b
  have hl := score_bounds hsz1 hsz2
  have he := score_bounds hzk1 hzk2
  have hi := score_bounds hmn1 hmn2
  have hp := score_bounds hpch1 hpch2
  have hlb : -(1 / 2) ≤ lifePathScore (profileFrom dp1 f1) (profileFrom dp2 f2) ∧
      lifePathScore (profileFrom dp1 f1) (profileFrom dp2 f2) ≤ 10 := hl
  have heb : -(1 / 2) ≤ emotionalScore (profileFrom dp1 f1) (profileFrom dp2 f2) ∧
      emotionalScore (profileFrom dp1 f1) (profileFrom dp2 f2) ≤ 10 := he
  have hib : -(1 / 2) ≤ intellectualScore (profileFrom dp1 f1) (profileFrom dp2 f2) ∧
      intellectualScore (profileFrom dp1 f1) (profileFrom dp2 f2) ≤ 10 := hi
  have hpb : -(1 / 2) ≤ physicalScore (profileFrom dp1 f1) (profileFrom dp2 f2) ∧
      physicalScore (profileFrom dp1 f1) (profileFrom dp2 f2) ≤ 10 := hp
  have htb := totalScore_bounds hlb.1 hlb.2 heb.1 heb.2 hib.1 hib.2 hpb.1 hpb.2
  refine ⟨?_, ?_, ?_, ?_, ?_⟩
  · exact round1_bounds hlb.1 hlb.2
  · exact round1_bounds heb.1 heb.2
  · exact round1_bounds hib.1 hib.2
  · exact round1_bounds hpb.1 hpb.2
  · exact round1_bounds htb.1 htb.2

/-- C9 witness: the amended bounds at a concrete pair of inputs. -/
theorem c9_witness :
    (-(1 / 2) ≤ (compatFrom (profileFrom ⟨1, 1, 2000⟩ "".toList)
        (profileFrom ⟨1, 1, 2000⟩ "А".toList)).life_path ∧
      (compatFrom (profileFrom ⟨1, 1, 2000⟩ "".toList)
        (profileFrom ⟨1, 1, 2000⟩ "А".toList)).life_path ≤ 10) ∧
    (-(1 / 2) ≤ (compatFrom (profileFrom ⟨1, 1, 2000⟩ "".toList)
        (profileFrom ⟨1, 1, 2000⟩ "А".toList)).emotional ∧
      (compatFrom (profileFrom ⟨1, 1, 2000⟩ "".toList)
        (profileFrom ⟨1, 1, 2000⟩ "А".toList)).emotional ≤ 10) ∧
    (-(1 / 2) ≤ (compatFrom (profileFrom ⟨1, 1, 2000⟩ "".toList)
        (profileFrom ⟨1, 1, 2000⟩ "А".toList)).intellectual ∧
      (compatFrom (profileFrom ⟨1, 1, 2000⟩ "".toList)
        (profileFrom ⟨1, 1, 2000⟩ "А".toList)).intellectual ≤ 10) ∧
    (-(1 / 2) ≤ (compatFrom (profileFrom ⟨1, 1, 2000⟩ "".toList)
        (profileFrom ⟨1, 1, 2000⟩ "А".toList)).physical ∧
      (compatFrom (profileFrom ⟨1, 1, 2000⟩ "".toList)
        (profileFrom ⟨1, 1, 2000⟩ "А".toList)).physical ≤ 10) ∧
    (-(1 / 2) ≤ (compatFrom (profileFrom ⟨1, 1, 2000⟩ "".toList)
        (profileFrom ⟨1, 1, 2000⟩ "А".toList)).total ∧
      (compatFrom (profileFrom ⟨1, 1, 2000⟩ "".toList)
        (profileFrom ⟨1, 1, 2000⟩ "А".toList)).total ≤ 10) :=
  c9_amended_score_bounds "01.01.2000".toList "".toList
    "01.01.2000".toList "А".toList _ rfl

/-- C10: each stored compatibility field is the corresponding score
rounded to one decimal place, and the percent field is the unrounded
total multiplied by 10 and then rounded (not ten times the rounded total
field). -/
theorem c10_rounded_fields (b1 f1 b2 f2 : List Char)
    (p1 p2 : NumerologyResult) (r : CompatibilityResult)
    (h1 : calculate_numerology_advanced b1 f1 = some p1)
    (h2 : calculate_numerology_advanced b2 f2 = some p2)
    (h : calculate_compatibility b1 f1 b2 f2 = some r) :
    r.life_path = round1 (lifePathScore p1 p2) ∧
    r.emotional = round1 (emotionalScore p1 p2) ∧
    r.intellectual = round1 (intellectualScore p1 p2) ∧
    r.physical = round1 (physicalScore p1 p2) ∧
    r.total = round1 (totalScore p1 p2) ∧
    r.percent = round1 (totalScore p1 p2 * 10) := by
  obtain ⟨q1, q2, hq1, hq2, rfl⟩ := compat_eq_some_iff.mp h
  rw [hq1] at h1
  rw [hq2] at h2
  cases h1
  cases h2
  exact ⟨rfl, rfl, rfl, rfl, rfl, rfl⟩

/-- C10 witness: the field equations at a concrete pair of inputs. -/
theorem c10_witness :
    (compatFrom (profileFrom ⟨1, 1, 1990⟩ "Иванов Иван".toList)
        (profileFrom ⟨1, 1, 2000⟩ "А".toList)).life_path =
      round1 (lifePathScore (profileFrom ⟨1, 1, 1990⟩ "Иванов Иван".toList)
        (profileFrom ⟨1, 1, 2000⟩ "А".toList)) ∧
    (compatFrom (profileFrom ⟨1, 1, 1990⟩ "Иванов Иван".toList)
        (profileFrom ⟨1, 1, 2000⟩ "А".toList)).emotional =
      round1 (emotionalScore (profileFrom ⟨1, 1, 1990⟩ "Иванов Иван".toList)
        (profileFrom ⟨1, 1, 2000⟩ "А".toList)) ∧
    (compatFrom (profileFrom ⟨1, 1, 1990⟩ "Иванов Иван".toList)
        (profileFrom ⟨1, 1, 2000⟩ "А".toList)).intellectual =
      round1 (intellectualScore (profileFrom ⟨1, 1, 1990⟩ "Иванов Иван".toList)
        (profileFrom ⟨1, 1, 2000⟩ "А".toList)) ∧
    (compatFrom (profileFrom ⟨1, 1, 1990⟩ "Иванов Иван".toList)
        (profileFrom ⟨1, 1, 2000⟩ "А".toList)).physical =
      round1 (physicalScore (profileFrom ⟨1, 1, 1990⟩ "Иванов Иван".toList)
        (profileFrom ⟨1, 1, 2000⟩ "А".toList)) ∧
    (compatFrom (profileFrom ⟨1, 1, 1990⟩ "Иванов Иван".toList)
        (profileFrom ⟨1, 1, 2000⟩ "А".toList)).total =
      round1 (totalScore (profileFrom ⟨1, 1, 1990⟩ "Иванов Иван".toList)
        (profileFrom ⟨1, 1, 2000⟩ "А".toList)) ∧
    (compatFrom (profileFrom ⟨1, 1, 1990⟩ "Иванов Иван".toList)
        (profileFrom ⟨1, 1, 2000⟩ "А".toList)).percent =
      round1 (totalScore (profileFrom ⟨1, 1, 1990⟩ "Иванов Иван".toList)
        (profileFrom ⟨1, 1, 2000⟩ "А".toList) * 10) :=
  c10_rounded_fields "01.01.1990".toList "Иванов Иван".toList
    "01.01.2000".toList "А".toList _ _ _ rfl rfl rfl
